import Mathlib

/-!
Verification development for the site script `src/js/main.js` of the
personal-website repository.  The script is DOM-event wiring; we embed each
handler as a pure function on an explicit state record:

* `ThemeManager` (lines 41-94): theme persistence and toggling,
* the anchor-click smooth-scroll handler (lines 2-19),
* the `IntersectionObserver` reveal callback (lines 107-113),
* the contact-form submit handler (lines 124-143),
* the navbar-background scroll handler (lines 158-169),
* the active-navigation-link scroll handler (lines 172-191).

JavaScript `localStorage.getItem` returns a string or null; we model it as
`Option String`.  JavaScript truthiness of a string treats null and the empty
string as falsy; the helpers `jsFalsyStr` / `jsOrDefault` reproduce exactly
that.  A property access on a null DOM element throws a TypeError; we model
element presence by `Bool` fields and such throws by `Except DomError`.
-/

/-- JavaScript truthiness test for a nullable string: null and the empty
string are falsy, every other string is truthy.  Models the check
`!localStorage.getItem("theme")` of main.js line 61. -/
def jsFalsyStr : Option String → Bool
  | none => true
  | some s => s = ""

/-- JavaScript `v || d` on a nullable string: yields `d` when `v` is falsy.
Models `localStorage.getItem("theme") || "light"` (main.js line 45). -/
def jsOrDefault (v : Option String) (d : String) : String :=
  match v with
  | none => d
  | some s => if s = "" then d else s

/-- An error thrown by a property access on a null DOM element
(`document.getElementById` returned null). -/
inductive DomError where
  | nullThemeIcon : DomError
  | nullThemeToggle : DomError
deriving DecidableEq, Repr

/-- The state touched by `ThemeManager` (main.js lines 41-94): the persisted
`theme` entry of local storage, the `data-theme` attribute of the document
root, presence of the `#themeToggle` and `#themeIcon` elements, the icon
`className`, the toggle `aria-label` and inline `transform` style, and the
manager field `currentTheme`. -/
structure TMState where
  storedTheme : Option String
  dataTheme : Option String
  hasThemeToggle : Bool
  hasThemeIcon : Bool
  themeIconClass : String
  ariaLabel : Option String
  toggleTransform : Option String
  currentTheme : String
deriving DecidableEq, Repr

namespace ThemeManager

/-- Embeds `ThemeManager.setTheme` (main.js lines 67-82): records
`currentTheme`, sets the `data-theme` attribute, updates the icon class and
the toggle aria-label (throwing a TypeError if the corresponding element is
null, in source order: the icon is dereferenced before the toggle), and
finally writes the theme to local storage. -/
def setTheme (theme : String) (s : TMState) : Except DomError TMState :=
  let s1 : TMState := { s with currentTheme := theme, dataTheme := some theme }
  if theme = "dark" then
    if s1.hasThemeIcon = false then .error .nullThemeIcon
    else
      let s2 : TMState := { s1 with themeIconClass := "fas fa-sun" }
      if s2.hasThemeToggle = false then .error .nullThemeToggle
      else
        let s3 : TMState := { s2 with ariaLabel := some "Switch to light mode" }
        .ok { s3 with storedTheme := some theme }
  else
    if s1.hasThemeIcon = false then .error .nullThemeIcon
    else
      let s2 : TMState := { s1 with themeIconClass := "fas fa-moon" }
      if s2.hasThemeToggle = false then .error .nullThemeToggle
      else
        let s3 : TMState := { s2 with ariaLabel := some "Switch to dark mode" }
        .ok { s3 with storedTheme := some theme }

/-- Embeds `ThemeManager.toggleTheme` (main.js lines 84-93): flips between
"light" and "dark", applies the result via `setTheme`, then sets a transient
rotation on the toggle inline style (the deferred revert 300ms later is
`resetTransform`). -/
def toggleTheme (s : TMState) : Except DomError TMState :=
  let newTheme := if s.currentTheme = "light" then "dark" else "light"
  match setTheme newTheme s with
  | .error e => .error e
  | .ok s' => .ok { s' with toggleTransform := some "rotate(360deg)" }

/-- The deferred callback of `toggleTheme` (main.js lines 90-92) that clears
the transient transform after 300ms. -/
def resetTransform (s : TMState) : TMState :=
  { s with toggleTransform := some "" }

/-- Embeds `ThemeManager.init` (main.js lines 50-65): applies the
constructor-resolved theme, then registers the click listener on
`#themeToggle` (a TypeError if that element is null) and the media-query
change listener. -/
def init (s : TMState) : Except DomError TMState :=
  match setTheme s.currentTheme s with
  | .error e => .error e
  | .ok s1 => if s1.hasThemeToggle = false then .error .nullThemeToggle else .ok s1

/-- Embeds `new ThemeManager()` (main.js lines 42-48): the constructor looks
up the two elements, resolves `currentTheme` as the stored theme entry with
default "light", and calls `init`.  Here `s` is the page state at
construction time; its `currentTheme` field is overwritten before being
read. -/
def construct (s : TMState) : Except DomError TMState :=
  init { s with currentTheme := jsOrDefault s.storedTheme "light" }

/-- The media-query change listener registered by `init` (main.js lines
60-64): applies the system theme only when the stored `theme` entry is falsy
(null or empty). -/
def onSystemThemeChange (m : Bool) (s : TMState) : Except DomError TMState :=
  if jsFalsyStr s.storedTheme then setTheme (if m then "dark" else "light") s
  else .ok s

end ThemeManager

/-- Events the theme manager reacts to after initialization: a click on the
toggle, or a system color-scheme change notification carrying `e.matches`. -/
inductive TMEvent where
  | toggleClick : TMEvent
  | systemChange : Bool → TMEvent
deriving DecidableEq, Repr

/-- One event step of the theme manager. -/
def tmStep (s : TMState) (e : TMEvent) : Except DomError TMState :=
  match e with
  | .toggleClick => ThemeManager.toggleTheme s
  | .systemChange m => ThemeManager.onSystemThemeChange m s

/-- Runs a sequence of events through the theme manager. -/
def tmRun (evs : List TMEvent) (s : TMState) : Except DomError TMState :=
  match evs with
  | [] => .ok s
  | e :: rest =>
    match tmStep s e with
    | .error err => .error err
    | .ok s' => tmRun rest s'

/-- A freshly loaded page: both theme elements present, no `theme` entry in
local storage, no `data-theme` attribute yet. -/
def freshPageState : TMState :=
  { storedTheme := none
    dataTheme := none
    hasThemeToggle := true
    hasThemeIcon := true
    themeIconClass := ""
    ariaLabel := none
    toggleTransform := none
    currentTheme := "" }

instance exceptDecEq {ε α : Type} [DecidableEq ε] [DecidableEq α] :
    DecidableEq (Except ε α)
  | .error e, .error f =>
    if h : e = f then .isTrue (by rw [h])
    else .isFalse (by intro hc; cases hc; exact h rfl)
  | .error _, .ok _ => .isFalse (by intro hc; cases hc)
  | .ok _, .error _ => .isFalse (by intro hc; cases hc)
  | .ok a, .ok b =>
    if h : a = b then .isTrue (by rw [h])
    else .isFalse (by intro hc; cases hc; exact h rfl)

/-- The page state right after a successful initialization on a fresh page:
theme resolved to light, persisted, applied to the document. -/
def lightReadyState : TMState :=
  { storedTheme := some "light"
    dataTheme := some "light"
    hasThemeToggle := true
    hasThemeIcon := true
    themeIconClass := "fas fa-moon"
    ariaLabel := some "Switch to dark mode"
    toggleTransform := none
    currentTheme := "light" }

/-- The page state after the user toggles once from `lightReadyState`. -/
def darkToggledState : TMState :=
  { storedTheme := some "dark"
    dataTheme := some "dark"
    hasThemeToggle := true
    hasThemeIcon := true
    themeIconClass := "fas fa-sun"
    ariaLabel := some "Switch to light mode"
    toggleTransform := some "rotate(360deg)"
    currentTheme := "dark" }

/-- The page state after toggling twice from `lightReadyState`: identical but
for the transient transform left by the second toggle. -/
def doubleToggledState : TMState :=
  { lightReadyState with toggleTransform := some "rotate(360deg)" }

/-- The persistent-state invariant of the theme manager: the stored `theme`
entry and the `data-theme` attribute both show the current theme. -/
def themeInvariant (s : TMState) : Prop :=
  s.storedTheme = some s.currentTheme ∧ s.dataTheme = some s.currentTheme

/-- The state produced by calling `setTheme "dark"` on the initialized light
state (no transient transform, unlike a toggle). -/
def darkSetState : TMState :=
  { lightReadyState with
      storedTheme := some "dark"
      dataTheme := some "dark"
      themeIconClass := "fas fa-sun"
      ariaLabel := some "Switch to light mode"
      currentTheme := "dark" }

/-- A section element as read by the highlight scroll handler (main.js lines
172-191): its id attribute, `offsetTop` and `clientHeight`. -/
structure PageSection where
  id : String
  offsetTop : Int
  clientHeight : Int
deriving DecidableEq, Repr

/-- A navigation link (an anchor in `.nav-links`): its href attribute and
whether it currently carries the `active` class. -/
structure NavLink where
  href : String
  active : Bool
deriving DecidableEq, Repr

/-- The `sections.forEach` fold of main.js lines 176-183: starting from the
empty string, each section in document order overwrites `current` with its id
when `window.pageYOffset >= sectionTop - 200`. -/
def computeCurrentSection (pageYOffset : Int) (sections : List PageSection) : String :=
  sections.foldl
    (fun current sec => if pageYOffset ≥ sec.offsetTop - 200 then sec.id else current) ""

/-- The `navLinks.forEach` of main.js lines 185-190: every link first loses
`active`, then regains it exactly when its href equals `"#" + current`. -/
def highlightNavLinks (links : List NavLink) (current : String) : List NavLink :=
  links.map fun link => { link with active := decide (link.href = "#" ++ current) }

/-- The whole scroll listener of main.js lines 172-191. -/
def scrollHighlightHandler (pageYOffset : Int) (sections : List PageSection)
    (links : List NavLink) : List NavLink :=
  highlightNavLinks links (computeCurrentSection pageYOffset sections)

/-- Spec-side description of the active section: the id of the LAST section in
document order whose top offset minus 200 is ≤ the scroll offset, if any. -/
def lastActiveSectionId (pageYOffset : Int) (sections : List PageSection) :
    Option String :=
  ((sections.filter fun sec => decide (pageYOffset ≥ sec.offsetTop - 200)).getLast?).map
    PageSection.id

/-- One entry delivered to the `IntersectionObserver` callback (main.js lines
107-113): the observed target element (identified by a number) and the
`isIntersecting` flag. -/
structure ObserverEntry where
  target : Nat
  isIntersecting : Bool
deriving DecidableEq, Repr

/-- The `IntersectionObserver` callback (main.js lines 107-113): for each
entry reported intersecting, add the class `fade-in` to its target (a
set-insert: the class is added only if absent); entries reported
non-intersecting are untouched.  `revealed` is the list of elements currently
carrying the `fade-in` class. -/
def intersectionCallback (entries : List ObserverEntry) (revealed : List Nat) :
    List Nat :=
  entries.foldl
    (fun rev entry =>
      if entry.isIntersecting then
        if entry.target ∈ rev then rev else rev ++ [entry.target]
      else rev)
    revealed

/-- A sequence of callback invocations, in delivery order. -/
def runIntersectionCallbacks (batches : List (List ObserverEntry))
    (revealed : List Nat) : List Nat :=
  batches.foldl (fun rev batch => intersectionCallback batch rev) revealed

/-- The three fields the submit handler reads from the contact form data
(main.js lines 128-131); `none` models a missing field (`FormData.get`
returns null). -/
structure ContactFormFields where
  name : Option String
  email : Option String
  message : Option String
deriving DecidableEq, Repr

/-- Observable outcome of one submit: the alert surfaced, whether
`this.reset()` ran, and the resulting field contents. -/
structure SubmitOutcome where
  alertMessage : String
  didReset : Bool
  fields : ContactFormFields
deriving DecidableEq, Repr

/-- The contact-form submit handler (main.js lines 124-143): if any of the
three fields is falsy (missing or empty), alert the validation message and
return, leaving the fields untouched; otherwise alert the success message and
reset the form (fields back to their empty defaults).  No network call exists
on either path. -/
def contactFormSubmit (fields : ContactFormFields) : SubmitOutcome :=
  if jsFalsyStr fields.name || jsFalsyStr fields.email || jsFalsyStr fields.message then
    { alertMessage := "Please fill in all fields."
      didReset := false
      fields := fields }
  else
    { alertMessage := "Thank you for your message! I\x27ll get back to you soon."
      didReset := true
      fields := { name := some "", email := some "", message := some "" } }

/-- The page state the anchor click handler can touch (main.js lines 2-19):
the navigation links with their `active` classes, the `active` class of the
clicked anchor itself, and the pending smooth-scroll target. -/
structure AnchorClickState where
  navLinks : List NavLink
  clickedActive : Bool
  scrolledTo : Option String
deriving DecidableEq, Repr

/-- The anchor click handler (main.js lines 2-19).  Here `targets` is the set
of selectors that `document.querySelector` resolves, and `href` the href
attribute of the clicked anchor.  When the target resolves: smooth-scroll to
it, strip `active` from every navigation link, and add it to the clicked
anchor.  When it does not, nothing happens (`e.preventDefault()` always runs,
but it touches only the event object, none of this state). -/
def anchorClickHandler (targets : List String) (href : String)
    (st : AnchorClickState) : AnchorClickState :=
  if href ∈ targets then
    { navLinks := st.navLinks.map fun l => { l with active := false }
      clickedActive := true
      scrolledTo := some href }
  else st

/-- The navbar scroll listener (main.js lines 158-169): above a 50px scroll
offset the background is the 0.98-opacity variant, otherwise the 0.95 one; a
`data-theme` attribute equal to "dark" selects the dark color
`rgba(17, 24, 39, _)`, anything else the light `rgba(255, 255, 255, _)`. -/
def navbarScrollBackground (scrollY : Int) (dataTheme : Option String) : String :=
  if scrollY > 50 then
    if dataTheme = some "dark" then "rgba(17, 24, 39, 0.98)"
    else "rgba(255, 255, 255, 0.98)"
  else
    if dataTheme = some "dark" then "rgba(17, 24, 39, 0.95)"
    else "rgba(255, 255, 255, 0.95)"

/-- Spec-side description of the navbar background: a function of exactly two
booleans — scrolled past the 50px threshold, and dark theme — mapping dark to
the dark color and the threshold to the higher opacity. -/
def navbarBackgroundByFlags (scrolledPast50 isDark : Bool) : String :=
  match scrolledPast50, isDark with
  | true, true => "rgba(17, 24, 39, 0.98)"
  | true, false => "rgba(255, 255, 255, 0.98)"
  | false, true => "rgba(17, 24, 39, 0.95)"
  | false, false => "rgba(255, 255, 255, 0.95)"

/-- Closed form of a successful `setTheme` call: both elements were present,
and the resulting state is the input with theme, attribute, icon class,
aria-label and stored entry all updated. -/
theorem setTheme_ok {t : String} {s s' : TMState}
    (h : ThemeManager.setTheme t s = .ok s') :
    s.hasThemeIcon = true ∧ s.hasThemeToggle = true ∧
      s' = { s with
              currentTheme := t
              dataTheme := some t
              themeIconClass := if t = "dark" then "fas fa-sun" else "fas fa-moon"
              ariaLabel := some (if t = "dark" then "Switch to light mode"
                                 else "Switch to dark mode")
              storedTheme := some t } := by
  unfold ThemeManager.setTheme at h
  by_cases hd : t = "dark" <;>
    cases hic : s.hasThemeIcon <;> cases htg : s.hasThemeToggle <;>
      simp [hd, hic, htg] at h ⊢ <;> exact h.symm

/-- Successful `setTheme` calls with both elements present. -/
theorem setTheme_eq_ok {t : String} {s : TMState}
    (hic : s.hasThemeIcon = true) (htg : s.hasThemeToggle = true) :
    ThemeManager.setTheme t s =
      .ok { s with
              currentTheme := t
              dataTheme := some t
              themeIconClass := if t = "dark" then "fas fa-sun" else "fas fa-moon"
              ariaLabel := some (if t = "dark" then "Switch to light mode"
                                 else "Switch to dark mode")
              storedTheme := some t } := by
  unfold ThemeManager.setTheme
  by_cases hd : t = "dark" <;> simp [hd, hic, htg]

/-- Closed form of a successful `toggleTheme` call. -/
theorem toggleTheme_ok {s s' : TMState}
    (h : ThemeManager.toggleTheme s = .ok s') :
    s.hasThemeIcon = true ∧ s.hasThemeToggle = true ∧
      s' = { s with
              currentTheme := if s.currentTheme = "light" then "dark" else "light"
              dataTheme := some (if s.currentTheme = "light" then "dark" else "light")
              themeIconClass := if s.currentTheme = "light" then "fas fa-sun"
                                else "fas fa-moon"
              ariaLabel := some (if s.currentTheme = "light" then "Switch to light mode"
                                 else "Switch to dark mode")
              storedTheme := some (if s.currentTheme = "light" then "dark" else "light")
              toggleTransform := some "rotate(360deg)" } := by
  unfold ThemeManager.toggleTheme at h
  dsimp only at h
  cases hset : ThemeManager.setTheme
      (if s.currentTheme = "light" then "dark" else "light") s with
  | error e => rw [hset] at h; exact absurd h (by simp)
  | ok s1 =>
    rw [hset] at h
    simp only [Except.ok.injEq] at h
    obtain ⟨hic, htg, hs1⟩ := setTheme_ok hset
    refine ⟨hic, htg, ?_⟩
    subst h
    rw [hs1]
    by_cases hl : s.currentTheme = "light" <;> simp [hl]

/-- A successful `init` call is exactly a successful `setTheme` call on the
resolved theme (the toggle-presence check after it cannot fail when `setTheme`
already dereferenced the toggle). -/
theorem init_ok {s s' : TMState} (h : ThemeManager.init s = .ok s') :
    ThemeManager.setTheme s.currentTheme s = .ok s' := by
  unfold ThemeManager.init at h
  cases hset : ThemeManager.setTheme s.currentTheme s with
  | error e => rw [hset] at h; cases h
  | ok s1 =>
    rw [hset] at h
    dsimp only at h
    by_cases htg : s1.hasThemeToggle = false
    · simp [htg] at h
    · rw [if_neg htg] at h
      exact h

/-- C1, counterexample.  On a fresh page whose local storage has no `theme`
entry (and with both theme elements present), initialization sets the
`data-theme` attribute to "light" and writes theme="light" to storage.  The
claimed outcome — "dark" with storage left empty — does not occur, whatever
the system color-scheme preference: initialization never reads it. -/
theorem c1_counterexample :
    (ThemeManager.construct freshPageState).map
        (fun s => (s.dataTheme, s.storedTheme)) = .ok (some "light", some "light") ∧
    ¬ ((ThemeManager.construct freshPageState).map
        (fun s => (s.dataTheme, s.storedTheme)) = .ok (some "dark", none)) :=
  ⟨rfl, by decide⟩

/-- C1, amended.  For every initial page state with no stored `theme` entry
and both theme elements present, and regardless of the system color-scheme
preference (`sysPrefersDark` is not read by initialization), initialization
sets the `data-theme` attribute to "light" and writes theme="light" to local
storage. -/
theorem c1_init_ignores_system_pref (s : TMState) (sysPrefersDark : Bool)
    (hstore : s.storedTheme = none)
    (hic : s.hasThemeIcon = true) (htg : s.hasThemeToggle = true) :
    (ThemeManager.construct s).map (fun u => (u.dataTheme, u.storedTheme))
      = .ok (some "light", some "light") := by
  unfold ThemeManager.construct ThemeManager.init
  rw [hstore]
  simp only [jsOrDefault]
  rw [setTheme_eq_ok (by simpa using hic) (by simpa using htg)]
  simp [htg, Except.map]

/-- C1, witness for the amended theorem at the fresh page state. -/
theorem c1_init_ignores_system_pref_witness :
    (ThemeManager.construct freshPageState).map (fun u => (u.dataTheme, u.storedTheme))
      = .ok (some "light", some "light") :=
  c1_init_ignores_system_pref freshPageState true rfl rfl rfl

/-- C3, counterexample.  With the `#themeIcon` element absent from the
document (a fresh page otherwise), `new ThemeManager()` throws a TypeError
while `setTheme` assigns `className` on null, contradicting the claim that
initialization raises no error. -/
theorem c3_counterexample :
    ThemeManager.construct { freshPageState with hasThemeIcon := false }
      = .error .nullThemeIcon := rfl

/-- C3, amended.  If the theme toggle control or its icon element is absent
from the document, `new ThemeManager()` raises a TypeError (modelled as a
`DomError`) from the null element access, whatever local storage holds; the
theme feature is inactive, but as an uncaught error, not a graceful no-op. -/
theorem c3_missing_element_init_errors (s : TMState)
    (h : s.hasThemeIcon = false ∨ s.hasThemeToggle = false) :
    ∃ e, ThemeManager.construct s = .error e := by
  cases hic : s.hasThemeIcon with
  | false =>
    refine ⟨.nullThemeIcon, ?_⟩
    unfold ThemeManager.construct ThemeManager.init ThemeManager.setTheme
    by_cases hd : jsOrDefault s.storedTheme "light" = "dark" <;> simp [hd, hic]
  | true =>
    have htg : s.hasThemeToggle = false := by
      rcases h with h | h
      · rw [hic] at h; exact absurd h (by simp)
      · exact h
    refine ⟨.nullThemeToggle, ?_⟩
    unfold ThemeManager.construct ThemeManager.init ThemeManager.setTheme
    by_cases hd : jsOrDefault s.storedTheme "light" = "dark" <;> simp [hd, hic, htg]

/-- C3, witness for the amended theorem: missing toggle control. -/
theorem c3_missing_element_init_errors_witness :
    ∃ e, ThemeManager.construct { freshPageState with hasThemeToggle := false }
      = .error e :=
  c3_missing_element_init_errors { freshPageState with hasThemeToggle := false }
    (Or.inr rfl)

/-- C4.  After an explicit toggle, every subsequent sequence of system
color-scheme change notifications is a no-op (the state, hence the current
theme and the `data-theme` attribute, stays at the explicitly chosen value),
because the toggle persisted a non-empty `theme` entry; and in general a
notification finding any non-empty persisted `theme` entry leaves the state
untouched — it applies the new preference only when storage has no entry. -/
theorem c4_system_change_ignored_after_toggle (s s1 : TMState) (ms : List Bool)
    (h : ThemeManager.toggleTheme s = .ok s1) :
    tmRun (ms.map TMEvent.systemChange) s1 = .ok s1 ∧
    ∀ (m : Bool) (u : TMState) (v : String), u.storedTheme = some v → v ≠ "" →
      ThemeManager.onSystemThemeChange m u = .ok u := by
  obtain ⟨hic, htg, hs1⟩ := toggleTheme_ok h
  have hstored : jsFalsyStr s1.storedTheme = false := by
    rw [hs1]; by_cases hl : s.currentTheme = "light" <;> simp [hl, jsFalsyStr]
  constructor
  · induction ms with
    | nil => rfl
    | cons m rest ih =>
      simpa [tmRun, tmStep, ThemeManager.onSystemThemeChange, hstored] using ih
  · intro m u v hv hne
    unfold ThemeManager.onSystemThemeChange
    simp [jsFalsyStr, hv, hne]

/-- C4, witness: a toggle from the initialized light state followed by two
system notifications (dark then light), all no-ops. -/
theorem c4_system_change_ignored_after_toggle_witness :
    tmRun ([true, false].map TMEvent.systemChange) darkToggledState
      = .ok darkToggledState ∧
    ∀ (m : Bool) (u : TMState) (v : String), u.storedTheme = some v → v ≠ "" →
      ThemeManager.onSystemThemeChange m u = .ok u :=
  c4_system_change_ignored_after_toggle lightReadyState darkToggledState
    [true, false] (by decide)

/-- C5.  From any consistent state (the `data-theme` attribute showing the
current theme, as every `setTheme` call leaves it) whose theme is light or
dark, two successive successful toggles restore both the manager field
`currentTheme` and the `data-theme` attribute to their values before the
first toggle. -/
theorem c5_double_toggle_restores (s s1 s2 : TMState)
    (hth : s.currentTheme = "light" ∨ s.currentTheme = "dark")
    (hdata : s.dataTheme = some s.currentTheme)
    (h1 : ThemeManager.toggleTheme s = .ok s1)
    (h2 : ThemeManager.toggleTheme s1 = .ok s2) :
    s2.currentTheme = s.currentTheme ∧ s2.dataTheme = s.dataTheme := by
  obtain ⟨_, _, hs1⟩ := toggleTheme_ok h1
  obtain ⟨_, _, hs2⟩ := toggleTheme_ok h2
  rcases hth with hth | hth <;> rw [hs2, hs1] <;> simp [hth, hdata]

/-- C5, witness: double toggle from the initialized light state. -/
theorem c5_double_toggle_restores_witness :
    doubleToggledState.currentTheme = lightReadyState.currentTheme ∧
    doubleToggledState.dataTheme = lightReadyState.dataTheme :=
  c5_double_toggle_restores lightReadyState darkToggledState doubleToggledState
    (Or.inl rfl) rfl (by decide) (by decide)

/-- Every successful `setTheme` call establishes the invariant. -/
theorem setTheme_invariant {t : String} {s s' : TMState}
    (h : ThemeManager.setTheme t s = .ok s') : themeInvariant s' := by
  obtain ⟨_, _, hs⟩ := setTheme_ok h
  rw [hs]; exact ⟨rfl, rfl⟩

/-- Every event step of the theme manager preserves the invariant. -/
theorem tmStep_invariant {s s' : TMState} {e : TMEvent}
    (hinv : themeInvariant s) (h : tmStep s e = .ok s') : themeInvariant s' := by
  cases e with
  | toggleClick =>
    obtain ⟨_, _, hs⟩ := toggleTheme_ok h
    rw [hs]; exact ⟨rfl, rfl⟩
  | systemChange m =>
    unfold tmStep ThemeManager.onSystemThemeChange at h
    cases hf : jsFalsyStr s.storedTheme
    · rw [hf] at h
      simp at h
      exact h ▸ hinv
    · rw [hf] at h
      simp only [if_true] at h
      exact setTheme_invariant h

/-- Event sequences preserve the invariant. -/
theorem tmRun_invariant {evs : List TMEvent} {s s' : TMState}
    (hinv : themeInvariant s) (h : tmRun evs s = .ok s') : themeInvariant s' := by
  induction evs generalizing s with
  | nil => cases h; exact hinv
  | cons e rest ih =>
    unfold tmRun at h
    cases hstep : tmStep s e with
    | error err => rw [hstep] at h; cases h
    | ok s1 =>
      rw [hstep] at h
      dsimp only at h
      exact ih (tmStep_invariant hinv hstep) h

/-- Successful initialization establishes the invariant. -/
theorem construct_invariant {s sI : TMState}
    (h : ThemeManager.construct s = .ok sI) : themeInvariant sI := by
  unfold ThemeManager.construct at h
  exact setTheme_invariant (init_ok h)

/-- C10.  Every successful `setTheme` call — the one made during
initialization included — writes its argument to the `theme` local-storage
entry (and to the `data-theme` attribute); consequently, after initialization
completes and through any subsequent sequence of toggle clicks and system
notifications, local storage always holds a `theme` entry equal to the current
theme, and the `data-theme` attribute equals that stored value. -/
theorem c10_setTheme_persist_invariant (t : String) (u u' : TMState)
    (s0 sI : TMState) (evs : List TMEvent) (s' : TMState)
    (hset : ThemeManager.setTheme t u = .ok u')
    (hinit : ThemeManager.construct s0 = .ok sI)
    (hrun : tmRun evs sI = .ok s') :
    (u'.storedTheme = some t ∧ u'.dataTheme = some t) ∧
    s'.storedTheme = some s'.currentTheme ∧ s'.dataTheme = some s'.currentTheme := by
  refine ⟨?_, tmRun_invariant (construct_invariant hinit) hrun⟩
  obtain ⟨_, _, hu⟩ := setTheme_ok hset
  rw [hu]; exact ⟨rfl, rfl⟩

/-- C10, witness: initialization from the fresh page, then a toggle click
followed by a system notification. -/
theorem c10_setTheme_persist_invariant_witness :
    (darkSetState.storedTheme = some "dark" ∧ darkSetState.dataTheme = some "dark") ∧
    darkToggledState.storedTheme = some darkToggledState.currentTheme ∧
    darkToggledState.dataTheme = some darkToggledState.currentTheme :=
  c10_setTheme_persist_invariant "dark" lightReadyState darkSetState
    freshPageState lightReadyState [TMEvent.toggleClick, TMEvent.systemChange true]
    darkToggledState (by decide) (by decide) (by decide)

/-- The fold of the highlight handler computes exactly the last matching
section id (its accumulator serves as the default for the no-match case). -/
theorem foldl_current_eq_lastMatch (off : Int) (sections : List PageSection)
    (a : String) :
    sections.foldl
        (fun current sec => if off ≥ sec.offsetTop - 200 then sec.id else current) a
      = (((sections.filter fun sec => decide (off ≥ sec.offsetTop - 200)).getLast?).map
          PageSection.id).getD a := by
  induction sections generalizing a with
  | nil => rfl
  | cons sec rest ih =>
    simp only [List.foldl_cons, List.filter_cons]
    by_cases hc : off ≥ sec.offsetTop - 200
    · simp only [hc, decide_True, if_true]
      rw [ih, List.getLast?_cons]
      cases hl : (rest.filter fun sec => decide (off ≥ sec.offsetTop - 200)).getLast? <;>
        simp [hl]
    · simp only [hc, decide_False, if_false]
      exact ih a

/-- The handler-side `computeCurrentSection` in terms of the spec-side
`lastActiveSectionId`. -/
theorem computeCurrentSection_eq (off : Int) (sections : List PageSection) :
    computeCurrentSection off sections = (lastActiveSectionId off sections).getD "" :=
  foldl_current_eq_lastMatch off sections ""

/-- C2, counterexample.  At scroll offset 0 with a single section whose top is
300 (so the threshold condition 0 ≥ 300 - 200 fails and no section matches),
the handler clears the `active` class from the only navigation link and
activates none: the count of active links is 0, not exactly one. -/
theorem c2_counterexample :
    ¬ ((scrollHighlightHandler 0
          [{ id := "about", offsetTop := 300, clientHeight := 400 }]
          [{ href := "#about", active := true }]).countP (fun l => l.active) = 1) := by
  decide

/-- C2, amended.  After the scroll handler runs, a navigation link carries the
`active` class iff its href equals "#" followed by the id of the last section
in document order whose top offset minus 200 is ≤ the scroll offset (the bare
"#" when no section matches); consequently the number of active links equals
the number of links whose href targets that section — exactly one precisely
when exactly one link href does, and zero, in particular, when no section
matches and no link href is the bare "#". -/
theorem c2_active_link_characterization (pageYOffset : Int)
    (sections : List PageSection) (links : List NavLink) :
    (∀ l ∈ scrollHighlightHandler pageYOffset sections links,
        l.active = true ↔
          l.href = "#" ++ (lastActiveSectionId pageYOffset sections).getD "") ∧
    (scrollHighlightHandler pageYOffset sections links).countP (fun l => l.active)
      = links.countP
          (fun l => decide (l.href = "#" ++ (lastActiveSectionId pageYOffset sections).getD "")) := by
  constructor
  · intro l hl
    unfold scrollHighlightHandler highlightNavLinks at hl
    rw [computeCurrentSection_eq] at hl
    obtain ⟨x, _, rfl⟩ := List.mem_map.mp hl
    simp
  · unfold scrollHighlightHandler highlightNavLinks
    rw [computeCurrentSection_eq, List.countP_map]
    rfl

/-- The callback never removes the `fade-in` mark. -/
theorem mem_intersectionCallback_of_mem {x : Nat} (entries : List ObserverEntry)
    {rev : List Nat} (hx : x ∈ rev) : x ∈ intersectionCallback entries rev := by
  induction entries generalizing rev with
  | nil => exact hx
  | cons e rest ih =>
    simp only [intersectionCallback, List.foldl_cons] at *
    apply ih
    by_cases hi : e.isIntersecting = true
    · rw [if_pos hi]
      by_cases hm : e.target ∈ rev
      · rw [if_pos hm]; exact hx
      · rw [if_neg hm]; exact List.mem_append_left _ hx
    · rw [if_neg hi]; exact hx

/-- An entry reported intersecting leaves its target marked. -/
theorem mem_intersectionCallback_of_entry {x : Nat} (entries : List ObserverEntry)
    (rev : List Nat) (hx : ObserverEntry.mk x true ∈ entries) :
    x ∈ intersectionCallback entries rev := by
  induction entries generalizing rev with
  | nil => cases hx
  | cons e rest ih =>
    simp only [intersectionCallback, List.foldl_cons] at *
    rcases List.mem_cons.mp hx with he | he
    · apply mem_intersectionCallback_of_mem rest
      rw [← he]
      by_cases hm : x ∈ rev
      · simp [hm]
      · simp [hm]
    · exact ih _ he

/-- Later callbacks preserve every existing mark. -/
theorem mem_runIntersectionCallbacks_of_mem {x : Nat}
    (batches : List (List ObserverEntry)) {rev : List Nat} (hx : x ∈ rev) :
    x ∈ runIntersectionCallbacks batches rev := by
  induction batches generalizing rev with
  | nil => exact hx
  | cons b rest ih =>
    simp only [runIntersectionCallbacks, List.foldl_cons] at *
    exact ih (mem_intersectionCallback_of_mem b hx)

/-- C6.  Once a callback batch reports an element intersecting (so the
`fade-in` class is added), the element stays marked revealed after every later
callback batch — batches reporting it non-intersecting included; the mark is
never removed. -/
theorem c6_reveal_is_permanent (x : Nat) (batch : List ObserverEntry)
    (later : List (List ObserverEntry)) (revealed : List Nat)
    (hx : ObserverEntry.mk x true ∈ batch) :
    x ∈ runIntersectionCallbacks later (intersectionCallback batch revealed) :=
  mem_runIntersectionCallbacks_of_mem later
    (mem_intersectionCallback_of_entry batch revealed hx)

/-- C6, witness: element 1 is revealed by the first batch and stays revealed
through a later batch reporting it non-intersecting. -/
theorem c6_reveal_is_permanent_witness :
    1 ∈ runIntersectionCallbacks [[ObserverEntry.mk 1 false], [ObserverEntry.mk 2 true]]
        (intersectionCallback [ObserverEntry.mk 1 true, ObserverEntry.mk 3 false] []) :=
  c6_reveal_is_permanent 1 [ObserverEntry.mk 1 true, ObserverEntry.mk 3 false]
    [[ObserverEntry.mk 1 false], [ObserverEntry.mk 2 true]] [] (by decide)

/-- C7.  Submitting with an empty (or missing) email — or any empty field —
surfaces the validation alert, performs no reset, and leaves the contents of
every field unchanged. -/
theorem c7_empty_field_blocks_submit (fields : ContactFormFields)
    (h : jsFalsyStr fields.name = true ∨ jsFalsyStr fields.email = true ∨
         jsFalsyStr fields.message = true) :
    (contactFormSubmit fields).alertMessage = "Please fill in all fields." ∧
    (contactFormSubmit fields).didReset = false ∧
    (contactFormSubmit fields).fields = fields := by
  unfold contactFormSubmit
  have hcond : (jsFalsyStr fields.name || jsFalsyStr fields.email ||
      jsFalsyStr fields.message) = true := by
    rcases h with h | h | h <;> simp [h]
  rw [if_pos hcond]
  exact ⟨rfl, rfl, rfl⟩

/-- C7, witness: a filled name and message but an empty email field. -/
theorem c7_empty_field_blocks_submit_witness :
    (contactFormSubmit { name := some "Ada", email := some "", message := some "Hi" }).alertMessage
        = "Please fill in all fields." ∧
    (contactFormSubmit { name := some "Ada", email := some "", message := some "Hi" }).didReset
        = false ∧
    (contactFormSubmit { name := some "Ada", email := some "", message := some "Hi" }).fields
        = { name := some "Ada", email := some "", message := some "Hi" } :=
  c7_empty_field_blocks_submit { name := some "Ada", email := some "", message := some "Hi" }
    (Or.inr (Or.inl rfl))

/-- C8.  A click on an anchor whose href does not resolve to an existing
element changes nothing: no scroll is initiated, no active class of any
navigation link changes, the class list of the clicked anchor is untouched. -/
theorem c8_unresolved_target_noop (targets : List String) (href : String)
    (st : AnchorClickState) (h : href ∉ targets) :
    anchorClickHandler targets href st = st := by
  unfold anchorClickHandler
  rw [if_neg h]

/-- C8, witness: a click on a missing target when only `#home` resolves. -/
theorem c8_unresolved_target_noop_witness :
    anchorClickHandler ["#home"] "#missing"
        { navLinks := [{ href := "#home", active := true }]
          clickedActive := false
          scrolledTo := none }
      = { navLinks := [{ href := "#home", active := true }]
          clickedActive := false
          scrolledTo := none } :=
  c8_unresolved_target_noop ["#home"] "#missing" _ (by decide)

/-- C9.  The navbar background is determined by exactly two inputs — whether
the scroll offset exceeds 50px and whether `data-theme` equals "dark" — via
the mapping `navbarBackgroundByFlags` (dark theme gets the dark color, higher
opacity above the threshold). -/
theorem c9_navbar_background_two_inputs (scrollY : Int) (dataTheme : Option String) :
    navbarScrollBackground scrollY dataTheme
      = navbarBackgroundByFlags (decide (scrollY > 50))
          (decide (dataTheme = some "dark")) := by
  unfold navbarScrollBackground navbarBackgroundByFlags
  by_cases hy : scrollY > 50 <;> by_cases ht : dataTheme = some "dark" <;>
    simp [hy, ht]
